import Mathlib

/-!
Verification of the Vercel MCP connector (`src/app.py`): a shallow embedding
of its Backend Client (`vercel_request`), Tool Registry (`TOOLS`), Tool
Dispatcher (`handle_tool_call`) and MCP Protocol Adapter
(`process_mcp_message`, `mcp_handler`), together with theorems settling the
specification's claims about them.

JSON values are modelled by the inductive `Json` (numbers as integers: every
number the connector itself builds is an integer).  Python runtime behaviour
that the code relies on is modelled explicitly: dictionary subscription and
`.get` (including the exceptions they raise on missing keys or non-dict
values), truthiness, `str()` rendering, and `json.dumps(..., indent=2)`.
The HTTP network is a parameter `net : HttpRequest → HttpOutcome`; the
requests actually issued are returned alongside each result so that theorems
can speak about outbound calls.
-/

/-- A JSON value as handled by the connector (Python objects produced by
`request.get_json` / `response.json`): objects keep insertion order, numbers
are integers. -/
inductive Json where
  | null
  | bool (b : Bool)
  | num (n : Int)
  | str (s : String)
  | arr (elems : List Json)
  | obj (entries : List (String × Json))

/-- First-match association-list lookup: Python dict lookup (keys are unique
in every dict the program builds, so first match is the match). -/
def lookupKey : List (String × Json) → String → Option Json
  | [], _ => none
  | (k, v) :: rest, key => if k = key then some v else lookupKey rest key

/-- Lookup with a default: models `d.get(key, dflt)` on a genuine dict. -/
def lookupKeyD (entries : List (String × Json)) (key : String) (dflt : Json) : Json :=
  (lookupKey entries key).getD dflt

/-- Python dict item assignment `d[key] = v`: updates the value in place
(keeping the key's position) or appends a new entry. -/
def setKey : List (String × Json) → String → Json → List (String × Json)
  | [], key, v => [(key, v)]
  | (k, w) :: rest, key, v =>
      if k = key then (key, v) :: rest else (k, w) :: setKey rest key v

/-- Python type name of a JSON value, as it appears in runtime error
messages. -/
def typeName : Json → String
  | .null => "NoneType"
  | .bool _ => "bool"
  | .num _ => "int"
  | .str _ => "str"
  | .arr _ => "list"
  | .obj _ => "dict"

/-- Python truthiness of a JSON value (`if x:`). -/
def pyTruthy : Json → Bool
  | .null => false
  | .bool b => b
  | .num n => n != 0
  | .str s => s != ""
  | .arr xs => !xs.isEmpty
  | .obj kvs => !kvs.isEmpty

/-- Python `v.get(key, dflt)`: on a dict the value or the default, on any
other value an `AttributeError` (modelled as the exception's message). -/
def pyDictGetD (v : Json) (key : String) (dflt : Json) : Except String Json :=
  match v with
  | Json.obj kvs => Except.ok (lookupKeyD kvs key dflt)
  | other => Except.error ("'" ++ typeName other ++ "' object has no attribute 'get'")

/-- Python `v[key]` with a string key: on a dict the value or a `KeyError`
(whose `str()` is the repr of the key), on other values the corresponding
`TypeError` message. -/
def pySubscript (v : Json) (key : String) : Except String Json :=
  match v with
  | Json.obj kvs =>
      match lookupKey kvs key with
      | some x => Except.ok x
      | none => Except.error ("'" ++ key ++ "'")
  | Json.arr _ => Except.error "list indices must be integers or slices, not str"
  | Json.str _ => Except.error "string indices must be integers, not 'str'"
  | other => Except.error ("'" ++ typeName other ++ "' object is not subscriptable")

/-- Hexadecimal digit characters (lowercase), as Python prints them. -/
def hex2 (n : Nat) : String :=
  String.mk [Nat.digitChar (n / 16 % 16), Nat.digitChar (n % 16)]

/-- Four lowercase hexadecimal digits, for `\uXXXX` escapes. -/
def hex4 (n : Nat) : String :=
  String.mk [Nat.digitChar (n / 4096 % 16), Nat.digitChar (n / 256 % 16),
    Nat.digitChar (n / 16 % 16), Nat.digitChar (n % 16)]

/-- One character of a Python `repr` of a string (backslash escapes;
non-printables as `\xXX`). -/
def pyReprEscapeChar (c : Char) : String :=
  if c = '\\' then "\\\\"
  else if c = '\'' then "\\'"
  else if c = '\n' then "\\n"
  else if c = '\r' then "\\r"
  else if c = '\t' then "\\t"
  else if c.toNat < 32 ∨ c.toNat = 127 then "\\x" ++ hex2 c.toNat
  else String.singleton c

/-- Python `repr` of a string: single-quoted with escapes.  (Python switches
to double quotes when the string contains a single quote and no double
quote; the strings the program ever reprs — dict keys of its own argument
names — contain neither, so the single-quote form is exact for them.) -/
def pyReprString (s : String) : String :=
  "'" ++ String.join (s.data.map pyReprEscapeChar) ++ "'"

mutual

/-- Python `repr()` of a JSON value (as used inside `str()` of containers
and in f-string interpolation of non-strings). -/
def pyRepr : Json → String
  | .null => "None"
  | .bool true => "True"
  | .bool false => "False"
  | .num n => toString n
  | .str s => pyReprString s
  | .arr [] => "[]"
  | .arr (x :: xs) => "[" ++ String.intercalate ", " (pyReprList (x :: xs)) ++ "]"
  | .obj [] => "\x7b\x7d"
  | .obj (kv :: kvs) => "\x7b" ++ String.intercalate ", " (pyReprObj (kv :: kvs)) ++ "\x7d"

/-- Reprs of the elements of a list. -/
def pyReprList : List Json → List String
  | [] => []
  | x :: xs => pyRepr x :: pyReprList xs

/-- Reprs of the `key: value` entries of a dict. -/
def pyReprObj : List (String × Json) → List String
  | [] => []
  | (k, v) :: kvs => (pyReprString k ++ ": " ++ pyRepr v) :: pyReprObj kvs

end

/-- Python `str()` of a JSON value, as f-string interpolation renders it:
a string stays itself, everything else reprs. -/
def pyStr : Json → String
  | .str s => s
  | v => pyRepr v

/-- One character of a JSON string literal as `json.dumps` (default
`ensure_ascii=True`) emits it. -/
def jsonEscapeChar (c : Char) : String :=
  if c = '"' then "\\\""
  else if c = '\\' then "\\\\"
  else if c = '\n' then "\\n"
  else if c = '\t' then "\\t"
  else if c = '\r' then "\\r"
  else if c.toNat = 8 then "\\b"
  else if c.toNat = 12 then "\\f"
  else if c.toNat < 32 ∨ c.toNat > 126 then
    if c.toNat < 65536 then "\\u" ++ hex4 c.toNat
    else "\\u" ++ hex4 (55296 + (c.toNat - 65536) / 1024)
      ++ "\\u" ++ hex4 (56320 + (c.toNat - 65536) % 1024)
  else String.singleton c

/-- A double-quoted JSON string literal with escapes. -/
def jsonQuote (s : String) : String :=
  "\"" ++ String.join (s.data.map jsonEscapeChar) ++ "\""

/-- Python string slicing `s[:n]`: the first `n` characters. -/
def takeChars (n : Nat) (s : String) : String := String.mk (s.data.take n)

/-- The indentation prefix at nesting level `lvl` for `indent=2`. -/
def indentAt (lvl : Nat) : String := String.mk (List.replicate (2 * lvl) ' ')

mutual

/-- Python `json.dumps(v, indent=2)` at nesting level `lvl` (insertion
order, separators `,` and `: ` — the defaults when `indent` is given;
`default=str` never fires since every value here is JSON-serializable). -/
def dumpVal (lvl : Nat) : Json → String
  | .null => "null"
  | .bool true => "true"
  | .bool false => "false"
  | .num n => toString n
  | .str s => jsonQuote s
  | .arr [] => "[]"
  | .arr (x :: xs) =>
      "[\n" ++ String.intercalate ",\n" (dumpArr (lvl + 1) (x :: xs))
        ++ "\n" ++ indentAt lvl ++ "]"
  | .obj [] => "\x7b\x7d"
  | .obj (kv :: kvs) =>
      "\x7b\n" ++ String.intercalate ",\n" (dumpObj (lvl + 1) (kv :: kvs))
        ++ "\n" ++ indentAt lvl ++ "\x7d"

/-- The serialized, indented elements of a list. -/
def dumpArr (lvl : Nat) : List Json → List String
  | [] => []
  | x :: xs => (indentAt lvl ++ dumpVal lvl x) :: dumpArr lvl xs

/-- The serialized, indented `"key": value` entries of a dict. -/
def dumpObj (lvl : Nat) : List (String × Json) → List String
  | [] => []
  | (k, v) :: kvs => (indentAt lvl ++ jsonQuote k ++ ": " ++ dumpVal lvl v) :: dumpObj lvl kvs

end

/-- The serialization `json.dumps(v, indent=2, default=str)` used at
`src/app.py:306`. -/
def jsonDumps (v : Json) : String := dumpVal 0 v

example : jsonDumps (Json.obj [("error", Json.str "HTTP 404")]) =
    "\x7b\n  \"error\": \"HTTP 404\"\n\x7d" := rfl

example : pyStr (Json.obj [("a", Json.num 1)]) = "\x7b'a': 1\x7d" := rfl

/-- The process-wide configuration read from the environment at startup
(`VERCEL_TOKEN`, `VERCEL_TEAM_ID` at `src/app.py:23-24`; both default to
the empty string when unset). -/
structure Config where
  VERCEL_TOKEN : String
  VERCEL_TEAM_ID : String

/-- The fixed upstream base URL (`src/app.py:25`). -/
def BASE_URL : String := "https://api.vercel.com"

/-- An outbound HTTP request as `vercel_request` hands it to `httpx`:
method, joined URL, headers, query parameters (after team-id injection,
`None` when none are passed) and the JSON body (passed only for
POST/PATCH/PUT). -/
structure HttpRequest where
  method : String
  url : String
  headers : List (String × String)
  params : Option (List (String × Json))
  jsonBody : Option Json

/-- What the network does with a request: an HTTP response (status, body
text, and what `response.json()` would yield on that body) or a raised
transport exception — a timeout included — carrying its message. -/
inductive HttpOutcome where
  | resp (statusCode : Nat) (text : String) (jsonBody : Except String Json)
  | exc (msg : String)

/-- The query parameters after the team-id step (`src/app.py:36-38`): when
`VERCEL_TEAM_ID` is configured, `params = params or` an empty dict and then
`params["teamId"] = VERCEL_TEAM_ID`; otherwise the caller's parameters pass
through untouched. -/
def requestParams (cfg : Config) (params : Option (List (String × Json))) :
    Option (List (String × Json)) :=
  if cfg.VERCEL_TEAM_ID = "" then params
  else some (setKey (params.getD []) "teamId" (Json.str cfg.VERCEL_TEAM_ID))

/-- The HTTP methods `vercel_request` dispatches on (`src/app.py:42-51`). -/
def knownMethods : List String := ["GET", "POST", "PATCH", "DELETE", "PUT"]

/-- The methods whose branch passes `json=data` to the client
(`src/app.py:45,47,51`). -/
def bodyMethods : List String := ["POST", "PATCH", "PUT"]

/-- The request `vercel_request` issues for a known method: bearer and
content-type headers (`src/app.py:29-32`), URL joined from the base
(`src/app.py:33`), team-adjusted parameters, and the body for the
body-carrying methods. -/
def buildRequest (cfg : Config) (method endpoint : String) (data : Option Json)
    (params : Option (List (String × Json))) : HttpRequest :=
  { method := method
    url := BASE_URL ++ endpoint
    headers := [("Authorization", "Bearer " ++ cfg.VERCEL_TOKEN),
      ("Content-Type", "application/json")]
    params := requestParams cfg params
    jsonBody := if method ∈ bodyMethods then data else none }

/-- Result normalization of `vercel_request` (`src/app.py:55-62`): statuses
200/201/202/204 are accepted, 204 yields the fixed success dict, the other
accepted statuses yield the parsed body (a body that fails to parse raises
inside the `try`, so its message lands in the catch-all `error` dict), any
other status yields the `HTTP <code>` error dict with the body truncated to
500 characters, and a raised exception yields an `error` dict with its
message. -/
def normalizeResponse (o : HttpOutcome) : Json :=
  match o with
  | .exc m => Json.obj [("error", Json.str m)]
  | .resp status text body =>
      if status ∈ [200, 201, 202, 204] then
        if status = 204 then Json.obj [("success", Json.bool true)]
        else
          match body with
          | .ok j => j
          | .error e => Json.obj [("error", Json.str e)]
      else
        Json.obj [("error", Json.str ("HTTP " ++ toString status)),
          ("details", Json.str (takeChars 500 text))]

/-- The Backend Client `vercel_request` (`src/app.py:27-62`), with the
network abstracted as `net`.  Returns the result dict together with the
list of HTTP requests actually issued (empty for an unknown method, whose
branch returns an `error` dict without touching the network). -/
def vercel_request (cfg : Config) (net : HttpRequest → HttpOutcome)
    (method endpoint : String) (data : Option Json)
    (params : Option (List (String × Json))) : Json × List HttpRequest :=
  if method ∈ knownMethods then
    let req := buildRequest cfg method endpoint data params
    (normalizeResponse (net req), [req])
  else
    (Json.obj [("error", Json.str ("Unknown method: " ++ method))], [])

/-- The static Tool Registry `TOOLS` (`src/app.py:64-234`), transcribed
entry by entry in source order. -/
def TOOLS : List Json := [
  Json.obj [("name", Json.str "list_projects"),
    ("description", Json.str "List all Vercel projects"),
    ("inputSchema", Json.obj [("type", Json.str "object"),
      ("properties", Json.obj [
        ("limit", Json.obj [("type", Json.str "integer"), ("default", Json.num 20),
          ("description", Json.str "Max projects to return")])])])],
  Json.obj [("name", Json.str "get_project"),
    ("description", Json.str "Get details of a specific project"),
    ("inputSchema", Json.obj [("type", Json.str "object"),
      ("properties", Json.obj [
        ("project_id", Json.obj [("type", Json.str "string"),
          ("description", Json.str "Project ID or name")])]),
      ("required", Json.arr [Json.str "project_id"])])],
  Json.obj [("name", Json.str "create_project"),
    ("description", Json.str "Create a new Vercel project"),
    ("inputSchema", Json.obj [("type", Json.str "object"),
      ("properties", Json.obj [
        ("name", Json.obj [("type", Json.str "string"),
          ("description", Json.str "Project name")]),
        ("framework", Json.obj [("type", Json.str "string"),
          ("description", Json.str "Framework preset (nextjs, react, vue, etc.)")]),
        ("git_repository", Json.obj [("type", Json.str "object"),
          ("description", Json.str "Git repository config \x7btype, repo\x7d")])]),
      ("required", Json.arr [Json.str "name"])])],
  Json.obj [("name", Json.str "delete_project"),
    ("description", Json.str "Delete a Vercel project"),
    ("inputSchema", Json.obj [("type", Json.str "object"),
      ("properties", Json.obj [
        ("project_id", Json.obj [("type", Json.str "string"),
          ("description", Json.str "Project ID or name")])]),
      ("required", Json.arr [Json.str "project_id"])])],
  Json.obj [("name", Json.str "list_deployments"),
    ("description", Json.str "List deployments for a project"),
    ("inputSchema", Json.obj [("type", Json.str "object"),
      ("properties", Json.obj [
        ("project_id", Json.obj [("type", Json.str "string"),
          ("description", Json.str "Project ID or name")]),
        ("limit", Json.obj [("type", Json.str "integer"), ("default", Json.num 10)]),
        ("state", Json.obj [("type", Json.str "string"),
          ("enum", Json.arr [Json.str "BUILDING", Json.str "ERROR",
            Json.str "INITIALIZING", Json.str "QUEUED", Json.str "READY",
            Json.str "CANCELED"])])])])],
  Json.obj [("name", Json.str "get_deployment"),
    ("description", Json.str "Get details of a specific deployment"),
    ("inputSchema", Json.obj [("type", Json.str "object"),
      ("properties", Json.obj [
        ("deployment_id", Json.obj [("type", Json.str "string"),
          ("description", Json.str "Deployment ID or URL")])]),
      ("required", Json.arr [Json.str "deployment_id"])])],
  Json.obj [("name", Json.str "cancel_deployment"),
    ("description", Json.str "Cancel a running deployment"),
    ("inputSchema", Json.obj [("type", Json.str "object"),
      ("properties", Json.obj [
        ("deployment_id", Json.obj [("type", Json.str "string"),
          ("description", Json.str "Deployment ID")])]),
      ("required", Json.arr [Json.str "deployment_id"])])],
  Json.obj [("name", Json.str "list_domains"),
    ("description", Json.str "List all domains"),
    ("inputSchema", Json.obj [("type", Json.str "object"),
      ("properties", Json.obj [
        ("limit", Json.obj [("type", Json.str "integer"), ("default", Json.num 20)])])])],
  Json.obj [("name", Json.str "add_domain"),
    ("description", Json.str "Add a domain to a project"),
    ("inputSchema", Json.obj [("type", Json.str "object"),
      ("properties", Json.obj [
        ("project_id", Json.obj [("type", Json.str "string"),
          ("description", Json.str "Project ID")]),
        ("domain", Json.obj [("type", Json.str "string"),
          ("description", Json.str "Domain name to add")])]),
      ("required", Json.arr [Json.str "project_id", Json.str "domain"])])],
  Json.obj [("name", Json.str "remove_domain"),
    ("description", Json.str "Remove a domain from a project"),
    ("inputSchema", Json.obj [("type", Json.str "object"),
      ("properties", Json.obj [
        ("project_id", Json.obj [("type", Json.str "string"),
          ("description", Json.str "Project ID")]),
        ("domain", Json.obj [("type", Json.str "string"),
          ("description", Json.str "Domain name to remove")])]),
      ("required", Json.arr [Json.str "project_id", Json.str "domain"])])],
  Json.obj [("name", Json.str "list_env_vars"),
    ("description", Json.str "List environment variables for a project"),
    ("inputSchema", Json.obj [("type", Json.str "object"),
      ("properties", Json.obj [
        ("project_id", Json.obj [("type", Json.str "string"),
          ("description", Json.str "Project ID")])]),
      ("required", Json.arr [Json.str "project_id"])])],
  Json.obj [("name", Json.str "create_env_var"),
    ("description", Json.str "Create an environment variable"),
    ("inputSchema", Json.obj [("type", Json.str "object"),
      ("properties", Json.obj [
        ("project_id", Json.obj [("type", Json.str "string"),
          ("description", Json.str "Project ID")]),
        ("key", Json.obj [("type", Json.str "string"),
          ("description", Json.str "Variable name")]),
        ("value", Json.obj [("type", Json.str "string"),
          ("description", Json.str "Variable value")]),
        ("target", Json.obj [("type", Json.str "array"),
          ("items", Json.obj [("type", Json.str "string")]),
          ("description", Json.str "Targets: production, preview, development")])]),
      ("required", Json.arr [Json.str "project_id", Json.str "key", Json.str "value"])])],
  Json.obj [("name", Json.str "delete_env_var"),
    ("description", Json.str "Delete an environment variable"),
    ("inputSchema", Json.obj [("type", Json.str "object"),
      ("properties", Json.obj [
        ("project_id", Json.obj [("type", Json.str "string"),
          ("description", Json.str "Project ID")]),
        ("env_id", Json.obj [("type", Json.str "string"),
          ("description", Json.str "Environment variable ID")])]),
      ("required", Json.arr [Json.str "project_id", Json.str "env_id"])])],
  Json.obj [("name", Json.str "redeploy"),
    ("description", Json.str "Trigger a redeployment of the latest deployment"),
    ("inputSchema", Json.obj [("type", Json.str "object"),
      ("properties", Json.obj [
        ("deployment_id", Json.obj [("type", Json.str "string"),
          ("description", Json.str "Deployment ID to redeploy")])]),
      ("required", Json.arr [Json.str "deployment_id"])])],
  Json.obj [("name", Json.str "get_user"),
    ("description", Json.str "Get current authenticated user info"),
    ("inputSchema", Json.obj [("type", Json.str "object"),
      ("properties", Json.obj [])])]]

/-- The names the registry declares, in order: each entry's `name` field. -/
def registryNames : List String :=
  TOOLS.filterMap fun t =>
    match t with
    | Json.obj kvs =>
        match lookupKey kvs "name" with
        | some (Json.str s) => some s
        | _ => none
    | _ => none

/-- One item of a tool result's `content` list; the dispatcher only ever
builds `type = "text"` items whose `text` is a string. -/
structure ContentItem where
  type : String
  text : String
deriving DecidableEq, Repr

/-- A tool-call result as `handle_tool_call` returns it: the `content` list
and the `isError` entry (`none` models the key being absent from the
returned dict). -/
structure ToolResult where
  content : List ContentItem
  isError : Option Bool
deriving DecidableEq, Repr

/-- A content item rendered back to JSON for the JSON-RPC envelope. -/
def ContentItem.toJson (c : ContentItem) : Json :=
  Json.obj [("type", Json.str c.type), ("text", Json.str c.text)]

/-- A tool result rendered back to JSON: the `isError` key appears exactly
when the dispatcher set it. -/
def ToolResult.toJson (r : ToolResult) : Json :=
  match r.isError with
  | some b => Json.obj [("content", Json.arr (r.content.map ContentItem.toJson)),
      ("isError", Json.bool b)]
  | none => Json.obj [("content", Json.arr (r.content.map ContentItem.toJson))]

/-- What the dispatcher's name match decides: the final `else` branch
(unknown tool), or the one `vercel_request` invocation of the matched
branch (method, endpoint, body, query parameters). -/
inductive Dispatch where
  | unknown
  | call (method : String) (endpoint : String) (data : Option Json)
      (params : Option (List (String × Json)))

/-- The `target` default of `create_env_var` (`src/app.py:286`). -/
def defaultTarget : Json :=
  Json.arr [Json.str "production", Json.str "preview", Json.str "development"]

/-- The `if args.get(k): d[k2] = args[k]` pattern of the `create_project`
and `list_deployments` branches (`src/app.py:247-250,258-261`): when the
already-fetched `args.get` result is truthy, copy `args[src]` into the dict
under `dst`, else leave the dict alone. -/
def addIfTruthy (args fetched : Json) (src dst : String)
    (l : List (String × Json)) : Except String (List (String × Json)) :=
  if pyTruthy fetched then do
    let v ← pySubscript args src
    pure (setKey l dst v)
  else pure l

/-- Argument shaping of `handle_tool_call`'s `elif` chain
(`src/app.py:239-304`) for a string tool name: each branch reads its
arguments exactly as the source does (`args[k]` may raise a `KeyError`,
`args.get` may raise an `AttributeError` on a non-dict, truthy optional
arguments are copied under their renamed keys) and yields the single
`vercel_request` invocation; the final branch yields `unknown`.  Reads are
in the source's evaluation order (positional f-string endpoints before
keyword bodies). -/
def shapeToolNamed (s : String) (args : Json) : Except String Dispatch :=
  if s = "list_projects" then do
    let lim ← pyDictGetD args "limit" (Json.num 20)
    pure (Dispatch.call "GET" "/v9/projects" none (some [("limit", lim)]))
  else if s = "get_project" then do
    let pid ← pySubscript args "project_id"
    pure (Dispatch.call "GET" ("/v9/projects/" ++ pyStr pid) none none)
  else if s = "create_project" then do
    let nm ← pySubscript args "name"
    let fw ← pyDictGetD args "framework" Json.null
    let d ← addIfTruthy args fw "framework" "framework" [("name", nm)]
    let gr ← pyDictGetD args "git_repository" Json.null
    let d ← addIfTruthy args gr "git_repository" "gitRepository" d
    pure (Dispatch.call "POST" "/v10/projects" (some (Json.obj d)) none)
  else if s = "delete_project" then do
    let pid ← pySubscript args "project_id"
    pure (Dispatch.call "DELETE" ("/v9/projects/" ++ pyStr pid) none none)
  else if s = "list_deployments" then do
    let lim ← pyDictGetD args "limit" (Json.num 10)
    let pv ← pyDictGetD args "project_id" Json.null
    let p ← addIfTruthy args pv "project_id" "projectId" [("limit", lim)]
    let sv ← pyDictGetD args "state" Json.null
    let p ← addIfTruthy args sv "state" "state" p
    pure (Dispatch.call "GET" "/v6/deployments" none (some p))
  else if s = "get_deployment" then do
    let did ← pySubscript args "deployment_id"
    pure (Dispatch.call "GET" ("/v13/deployments/" ++ pyStr did) none none)
  else if s = "cancel_deployment" then do
    let did ← pySubscript args "deployment_id"
    pure (Dispatch.call "PATCH" ("/v12/deployments/" ++ pyStr did ++ "/cancel") none none)
  else if s = "list_domains" then do
    let lim ← pyDictGetD args "limit" (Json.num 20)
    pure (Dispatch.call "GET" "/v5/domains" none (some [("limit", lim)]))
  else if s = "add_domain" then do
    let pid ← pySubscript args "project_id"
    let dom ← pySubscript args "domain"
    pure (Dispatch.call "POST" ("/v10/projects/" ++ pyStr pid ++ "/domains")
      (some (Json.obj [("name", dom)])) none)
  else if s = "remove_domain" then do
    let pid ← pySubscript args "project_id"
    let dom ← pySubscript args "domain"
    pure (Dispatch.call "DELETE"
      ("/v9/projects/" ++ pyStr pid ++ "/domains/" ++ pyStr dom) none none)
  else if s = "list_env_vars" then do
    let pid ← pySubscript args "project_id"
    pure (Dispatch.call "GET" ("/v9/projects/" ++ pyStr pid ++ "/env") none none)
  else if s = "create_env_var" then do
    let k ← pySubscript args "key"
    let v ← pySubscript args "value"
    let t ← pyDictGetD args "target" defaultTarget
    let pid ← pySubscript args "project_id"
    pure (Dispatch.call "POST" ("/v10/projects/" ++ pyStr pid ++ "/env")
      (some (Json.obj [("key", k), ("value", v), ("target", t),
        ("type", Json.str "encrypted")])) none)
  else if s = "delete_env_var" then do
    let pid ← pySubscript args "project_id"
    let eid ← pySubscript args "env_id"
    pure (Dispatch.call "DELETE"
      ("/v9/projects/" ++ pyStr pid ++ "/env/" ++ pyStr eid) none none)
  else if s = "redeploy" then do
    let did ← pySubscript args "deployment_id"
    pure (Dispatch.call "POST" "/v13/deployments"
      (some (Json.obj [("deploymentId", did), ("target", Json.str "production")])) none)
  else if s = "get_user" then
    pure (Dispatch.call "GET" "/v2/user" none none)
  else
    pure Dispatch.unknown

/-- Argument shaping for an arbitrary `name` value: a non-string name
matches none of the `elif` comparisons, so it falls to the unknown branch. -/
def shapeTool (name : Json) (args : Json) : Except String Dispatch :=
  match name with
  | Json.str s => shapeToolNamed s args
  | _ => Except.ok Dispatch.unknown

/-- The Tool Dispatcher `handle_tool_call` (`src/app.py:236-310`): unknown
names get the `Unknown tool` error result, an exception raised while
shaping arguments is caught and rendered as the `Error: <message>` result
(both with `isError` set and no network traffic), and a matched branch's
`vercel_request` result — success or upstream failure alike — is serialized
with `json.dumps(..., indent=2)` into a single text item with no `isError`
key.  Returns the result together with the issued HTTP requests. -/
def handle_tool_call (cfg : Config) (net : HttpRequest → HttpOutcome)
    (name : Json) (args : Json) : ToolResult × List HttpRequest :=
  match shapeTool name args with
  | .error e =>
      ({ content := [{ type := "text", text := "Error: " ++ e }], isError := some true }, [])
  | .ok .unknown =>
      ({ content := [{ type := "text", text := "Unknown tool: " ++ pyStr name }],
         isError := some true }, [])
  | .ok (.call method endpoint data params) =>
      let r := vercel_request cfg net method endpoint data params
      ({ content := [{ type := "text", text := jsonDumps r.1 }], isError := none }, r.2)

/-- The fixed `initialize` result descriptor (`src/app.py:318-326`). -/
def initializeResult : Json :=
  Json.obj [("protocolVersion", Json.str "2024-11-05"),
    ("capabilities", Json.obj [("tools", Json.obj [("listChanged", Json.bool true)])]),
    ("serverInfo", Json.obj [("name", Json.str "vercel-mcp"),
      ("version", Json.str "1.0.0")])]

/-- A JSON-RPC success envelope. -/
def rpcResult (id : Json) (result : Json) : Json :=
  Json.obj [("jsonrpc", Json.str "2.0"), ("id", id), ("result", result)]

/-- A JSON-RPC error envelope. -/
def rpcError (id : Json) (code : Int) (msg : String) : Json :=
  Json.obj [("jsonrpc", Json.str "2.0"), ("id", id),
    ("error", Json.obj [("code", Json.num code), ("message", Json.str msg)])]

/-- The method routing of `process_mcp_message` (`src/app.py:317-335`)
after `method`, `params` and `id` have been read: the four recognized
methods get their fixed results (`tools/call` reading `name` and
`arguments` off `params` with their defaults — which raises when `params`
is not a dict — and delegating to the dispatcher), anything else gets the
`-32601` error envelope rendering the method value through `str()`. -/
def processBody (cfg : Config) (net : HttpRequest → HttpOutcome)
    (method params request_id : Json) : Except String (Json × List HttpRequest) :=
  match method with
  | Json.str "initialize" => pure (rpcResult request_id initializeResult, [])
  | Json.str "tools/list" =>
      pure (rpcResult request_id (Json.obj [("tools", Json.arr TOOLS)]), [])
  | Json.str "tools/call" => do
      let nm ← pyDictGetD params "name" (Json.str "")
      let ar ← pyDictGetD params "arguments" (Json.obj [])
      let r := handle_tool_call cfg net nm ar
      pure (rpcResult request_id r.1.toJson, r.2)
  | Json.str "notifications/initialized" => pure (rpcResult request_id (Json.obj []), [])
  | m => pure (rpcError request_id (-32601) ("Method not found: " ++ pyStr m), [])

/-- The MCP Protocol Adapter `process_mcp_message` (`src/app.py:312-335`):
reads `method`, `params` and `id` (with their defaults) off the incoming
value — raising on a non-dict, as `.get` does — then routes per
`processBody`.  An `Except.error` is an uncaught Python exception
propagating to the caller; the second component lists the HTTP requests
issued. -/
def process_mcp_message (cfg : Config) (net : HttpRequest → HttpOutcome)
    (data : Json) : Except String (Json × List HttpRequest) := do
  let method ← pyDictGetD data "method" (Json.str "")
  let params ← pyDictGetD data "params" (Json.obj [])
  let request_id ← pyDictGetD data "id" (Json.num 1)
  processBody cfg net method params request_id

/-- What `request.get_json()` did inside the `/mcp` handler's `try`: it
returned a JSON value (`value Json.null` models a `None` return), or it —
or anything else before the response is built — raised an exception with
the given message. -/
inductive GetJsonOutcome where
  | value (v : Json)
  | failure (msg : String)

/-- The transport shim `mcp_handler` (`src/app.py:347-357`): a falsy body
yields the `-32700` envelope with id `None` and status 400, a processed
message yields its envelope with status 200, and any exception raised under
the `try` yields the `-32603` envelope with the hard-coded id `1` and
status 500.  The final component lists the HTTP requests issued. -/
def mcp_handler (cfg : Config) (net : HttpRequest → HttpOutcome)
    (got : GetJsonOutcome) : (Json × Nat) × List HttpRequest :=
  match got with
  | .failure e => ((rpcError (Json.num 1) (-32603) e, 500), [])
  | .value d =>
      if pyTruthy d then
        match process_mcp_message cfg net d with
        | .ok (resp, reqs) => ((resp, 200), reqs)
        | .error e => ((rpcError (Json.num 1) (-32603) e, 500), [])
      else
        ((rpcError Json.null (-32700) "Parse error", 400), [])

/-- Reading off a key of a JSON object (`none` on anything else): used to
state which `id` a response envelope carries. -/
def getKey : Json → String → Option Json
  | .obj kvs, k => lookupKey kvs k
  | _, _ => none

/-- Whether an outcome is a Failure in the Backend Client's sense: a raised
transport exception, or an HTTP status outside the accepted set. -/
def isFailure : HttpOutcome → Bool
  | .exc _ => true
  | .resp s _ _ => decide (s ∉ [200, 201, 202, 204])

/-- Whether a JSON value is an object carrying the given key. -/
def hasKey : Json → String → Bool
  | .obj kvs, k => (lookupKey kvs k).isSome
  | _, _ => false

theorem except_bind_ok {α β : Type} {e : Except String α} {f : α → Except String β} {b : β}
    (h : (e >>= f) = Except.ok b) : ∃ a, e = Except.ok a ∧ f a = Except.ok b := by
  cases e with
  | error s => exact absurd h (by simp [Bind.bind, Except.bind])
  | ok a => exact ⟨a, rfl, h⟩

theorem lookupKey_setKey_self (l : List (String × Json)) (k : String) (v : Json) :
    lookupKey (setKey l k v) k = some v := by
  induction l with
  | nil => simp [setKey, lookupKey]
  | cons hd tl ih =>
      obtain ⟨k', w⟩ := hd
      by_cases h : k' = k
      · simp [setKey, h, lookupKey]
      · simp [setKey, h, lookupKey, ih]

theorem lookupKey_setKey_ne (l : List (String × Json)) (k k' : String) (v : Json)
    (h : k' ≠ k) : lookupKey (setKey l k v) k' = lookupKey l k' := by
  have hk : k ≠ k' := fun he => h he.symm
  induction l with
  | nil => simp [setKey, lookupKey, hk]
  | cons hd tl ih =>
      obtain ⟨a, w⟩ := hd
      by_cases ha : a = k
      · subst ha
        simp [setKey, lookupKey, hk]
      · simp [setKey, ha, lookupKey, ih]

/-- The registry's declared names, computed. -/
theorem registryNames_eq : registryNames = ["list_projects", "get_project",
    "create_project", "delete_project", "list_deployments", "get_deployment",
    "cancel_deployment", "list_domains", "add_domain", "remove_domain",
    "list_env_vars", "create_env_var", "delete_env_var", "redeploy",
    "get_user"] := rfl

/-- For a dispatched method, `vercel_request` issues exactly the built
request and normalizes what the network answers. -/
theorem vercel_request_known (cfg : Config) (net : HttpRequest → HttpOutcome)
    (method endpoint : String) (data : Option Json)
    (params : Option (List (String × Json))) (hm : method ∈ knownMethods) :
    vercel_request cfg net method endpoint data params =
      (normalizeResponse (net (buildRequest cfg method endpoint data params)),
       [buildRequest cfg method endpoint data params]) := by
  simp [vercel_request, hm]

/-- A normalized Failure always carries the `error` key. -/
theorem normalizeResponse_failure (o : HttpOutcome) (h : isFailure o = true) :
    hasKey (normalizeResponse o) "error" = true := by
  cases o with
  | exc m => simp [normalizeResponse, hasKey, lookupKey]
  | resp s t b =>
      have hs : s ∉ [200, 201, 202, 204] := by simpa [isFailure] using h
      simp [normalizeResponse, hs, hasKey, lookupKey]

/-- A configuration with neither token nor team id set (the defaults when
the environment variables are absent). -/
def cfg0 : Config := { VERCEL_TOKEN := "", VERCEL_TEAM_ID := "" }

/-- A network on which every request comes back `404 Not Found` (whose body
does not parse as JSON). -/
def net404 : HttpRequest → HttpOutcome :=
  fun _ => HttpOutcome.resp 404 "Not Found"
    (Except.error "Expecting value: line 1 column 1 (char 0)")

/-- C1: for every tool name the dispatcher matches, when the Backend Client
returns a Failure (non-accepted HTTP status or transport exception on every
request this call issues), `handle_tool_call` returns a result whose
content is the single text item holding the JSON-serialized failure payload
— which carries the `error` key — and no `isError` flag is set on the
result. -/
theorem c1_upstream_failure_without_isError (cfg : Config)
    (net : HttpRequest → HttpOutcome) (name args : Json) (m ep : String)
    (d : Option Json) (p : Option (List (String × Json)))
    (hshape : shapeTool name args = Except.ok (Dispatch.call m ep d p))
    (hfail : ∀ req ∈ (vercel_request cfg net m ep d p).2, isFailure (net req) = true) :
    handle_tool_call cfg net name args =
      ({ content := [{ type := "text",
                       text := jsonDumps (vercel_request cfg net m ep d p).1 }],
         isError := none },
       (vercel_request cfg net m ep d p).2)
    ∧ hasKey (vercel_request cfg net m ep d p).1 "error" = true := by
  constructor
  · simp [handle_tool_call, hshape]
  · by_cases hm : m ∈ knownMethods
    · have hreq : buildRequest cfg m ep d p ∈ (vercel_request cfg net m ep d p).2 := by
        rw [vercel_request_known cfg net m ep d p hm]
        exact List.mem_singleton_self _
      have hk := normalizeResponse_failure _ (hfail _ hreq)
      rw [vercel_request_known cfg net m ep d p hm]
      exact hk
    · simp [vercel_request, hm, hasKey, lookupKey]

/-- Witness for C1: `get_project` on a network answering 404 yields the
serialized failure payload with no `isError` flag. -/
theorem c1_witness :
    handle_tool_call cfg0 net404 (Json.str "get_project")
        (Json.obj [("project_id", Json.str "p1")]) =
      ({ content := [{ type := "text",
                       text := jsonDumps (vercel_request cfg0 net404 "GET" "/v9/projects/p1" none none).1 }],
         isError := none },
       (vercel_request cfg0 net404 "GET" "/v9/projects/p1" none none).2)
    ∧ hasKey (vercel_request cfg0 net404 "GET" "/v9/projects/p1" none none).1 "error" = true :=
  c1_upstream_failure_without_isError cfg0 net404 (Json.str "get_project")
    (Json.obj [("project_id", Json.str "p1")]) "GET" "/v9/projects/p1" none none
    rfl (fun _ _ => rfl)

/-- C2 counterexample: the unknown-tool branch also sets `isError` although
no exception was raised during argument shaping (the shaping result is
`unknown`, not an error), so the shaping-exception path is not the only
path that sets `isError` true. -/
theorem c2_counterexample :
    (handle_tool_call cfg0 net404 (Json.str "unknown_tool") (Json.obj [])).1.isError
        = some true
    ∧ shapeTool (Json.str "unknown_tool") (Json.obj []) = Except.ok Dispatch.unknown :=
  ⟨rfl, rfl⟩

/-- C2 as amended: any exception raised during argument shaping is caught
at the dispatcher boundary and rendered as the `Error: <message>` result
with `isError` true and zero Backend Client invocations; `isError` is true
exactly on this path and on the unknown-tool path. -/
theorem c2_shaping_error_sets_isError (cfg : Config)
    (net : HttpRequest → HttpOutcome) (name args : Json) :
    (∀ e, shapeTool name args = Except.error e →
      handle_tool_call cfg net name args =
        ({ content := [{ type := "text", text := "Error: " ++ e }],
           isError := some true }, []))
    ∧ ((handle_tool_call cfg net name args).1.isError = some true ↔
        shapeTool name args = Except.ok Dispatch.unknown
          ∨ ∃ e, shapeTool name args = Except.error e) := by
  cases hs : shapeTool name args with
  | error e =>
      constructor
      · intro e' he'
        cases he'
        simp [handle_tool_call, hs]
      · simp [handle_tool_call, hs]
  | ok dsp =>
      cases dsp with
      | unknown =>
          constructor
          · intro e' he'
            cases he'
          · simp [handle_tool_call, hs]
      | call m ep d p =>
          constructor
          · intro e' he'
            cases he'
          · simp [handle_tool_call, hs]

/-- Witness for C2: `get_project` with an empty argument dict raises a
`KeyError` on `project_id`, rendered as the `Error:` result with `isError`
set and no request issued. -/
theorem c2_witness :
    handle_tool_call cfg0 net404 (Json.str "get_project") (Json.obj []) =
      ({ content := [{ type := "text", text := "Error: " ++ "'project_id'" }],
         isError := some true }, []) :=
  (c2_shaping_error_sets_isError cfg0 net404 (Json.str "get_project")
    (Json.obj [])).1 "'project_id'" rfl

/-- C3: for every name not present in the tool registry, `handle_tool_call`
returns the `Unknown tool: <name>` text with `isError` true and zero
Backend Client invocations, and `process_mcp_message` delivers this as a
successful JSON-RPC result envelope (no JSON-RPC error object). -/
theorem c3_unknown_tool_result (cfg : Config) (net : HttpRequest → HttpOutcome)
    (name args idv : Json) (h : name ∉ registryNames.map Json.str) :
    handle_tool_call cfg net name args =
      ({ content := [{ type := "text", text := "Unknown tool: " ++ pyStr name }],
         isError := some true }, [])
    ∧ process_mcp_message cfg net (Json.obj [("method", Json.str "tools/call"),
        ("params", Json.obj [("name", name), ("arguments", args)]), ("id", idv)]) =
      Except.ok (rpcResult idv (ToolResult.toJson
        { content := [{ type := "text", text := "Unknown tool: " ++ pyStr name }],
          isError := some true }), []) := by
  have hs : shapeTool name args = Except.ok Dispatch.unknown := by
    cases name with
    | str s =>
        have hmem : s ∉ registryNames := fun hc => h (List.mem_map_of_mem _ hc)
        rw [registryNames_eq] at hmem
        simp only [List.mem_cons, List.mem_singleton, not_or] at hmem
        simp [shapeTool, shapeToolNamed, hmem, pure, Except.pure]
    | null => rfl
    | bool b => rfl
    | num n => rfl
    | arr xs => rfl
    | obj kvs => rfl
  refine ⟨?_, ?_⟩
  · simp [handle_tool_call, hs]
  · simp [process_mcp_message, processBody, pyDictGetD, lookupKeyD, lookupKey,
      Bind.bind, Except.bind, handle_tool_call, hs, pure, Except.pure]

/-- Witness for C3: the name `unknown_tool` yields the unknown-tool result
and a successful JSON-RPC envelope. -/
theorem c3_witness :
    handle_tool_call cfg0 net404 (Json.str "unknown_tool") (Json.obj [("x", Json.num 1)]) =
      ({ content := [{ type := "text",
                       text := "Unknown tool: " ++ pyStr (Json.str "unknown_tool") }],
         isError := some true }, [])
    ∧ process_mcp_message cfg0 net404 (Json.obj [("method", Json.str "tools/call"),
        ("params", Json.obj [("name", Json.str "unknown_tool"),
          ("arguments", Json.obj [("x", Json.num 1)])]), ("id", Json.num 7)]) =
      Except.ok (rpcResult (Json.num 7) (ToolResult.toJson
        { content := [{ type := "text",
                        text := "Unknown tool: " ++ pyStr (Json.str "unknown_tool") }],
          isError := some true }), []) :=
  c3_unknown_tool_result cfg0 net404 (Json.str "unknown_tool")
    (Json.obj [("x", Json.num 1)]) (Json.num 7)
    (by rw [registryNames_eq]; simp)

/-- A network on which every request comes back with the unaccepted 2xx
status 203 and a body that parses as the empty JSON object. -/
def net203 : HttpRequest → HttpOutcome :=
  fun _ => HttpOutcome.resp 203 "ok" (Except.ok (Json.obj []))

set_option maxRecDepth 4096 in
/-- C4 counterexample: status 203 is a 2xx code other than 204 and its body
parses as JSON, yet `vercel_request` yields the `HTTP 203` failure dict,
not the parsed body, because only 200, 201 and 202 are accepted. -/
theorem c4_counterexample :
    (vercel_request cfg0 net203 "GET" "/v9/projects" none none).1 =
      Json.obj [("error", Json.str "HTTP 203"), ("details", Json.str "ok")]
    ∧ (vercel_request cfg0 net203 "GET" "/v9/projects" none none).1 ≠ Json.obj [] := by
  have h1 : (vercel_request cfg0 net203 "GET" "/v9/projects" none none).1 =
      Json.obj [("error", Json.str "HTTP 203"), ("details", Json.str "ok")] := rfl
  refine ⟨h1, ?_⟩
  intro hq
  rw [h1] at hq
  simp at hq

/-- C4 as amended: `vercel_request` normalizes responses as follows —
status 204 yields the fixed success payload, the other accepted statuses
200, 201 and 202 yield the parsed JSON body, any status outside the
accepted set (other 2xx codes such as 203 included) yields a failure with
message `HTTP <code>` and the first 500 characters of the body, and a
timeout or transport exception yields a failure carrying the exception's
message and no status code. -/
theorem c4_status_normalization (cfg : Config) (net : HttpRequest → HttpOutcome)
    (method endpoint : String) (data : Option Json)
    (params : Option (List (String × Json))) (hm : method ∈ knownMethods) :
    (vercel_request cfg net method endpoint data params).2 =
      [buildRequest cfg method endpoint data params]
    ∧ (∀ t b, net (buildRequest cfg method endpoint data params) = HttpOutcome.resp 204 t b →
        (vercel_request cfg net method endpoint data params).1 =
          Json.obj [("success", Json.bool true)])
    ∧ (∀ s t j, net (buildRequest cfg method endpoint data params) =
          HttpOutcome.resp s t (Except.ok j) → s ∈ [200, 201, 202] →
        (vercel_request cfg net method endpoint data params).1 = j)
    ∧ (∀ s t b, net (buildRequest cfg method endpoint data params) = HttpOutcome.resp s t b →
        s ∉ [200, 201, 202, 204] →
        (vercel_request cfg net method endpoint data params).1 =
          Json.obj [("error", Json.str ("HTTP " ++ toString s)),
            ("details", Json.str (takeChars 500 t))])
    ∧ (∀ e, net (buildRequest cfg method endpoint data params) = HttpOutcome.exc e →
        (vercel_request cfg net method endpoint data params).1 =
          Json.obj [("error", Json.str e)]) := by
  rw [vercel_request_known cfg net method endpoint data params hm]
  refine ⟨rfl, ?_, ?_, ?_, ?_⟩
  · intro t b hr
    rw [hr]
    rfl
  · intro s t j hr hs
    rw [hr]
    simp at hs
    rcases hs with rfl | rfl | rfl <;> rfl
  · intro s t b hr hs
    rw [hr]
    simp [normalizeResponse, hs]
  · intro e hr
    rw [hr]
    rfl

/-- A network on which every request comes back `204 No Content` with an
empty, unparseable body. -/
def net204 : HttpRequest → HttpOutcome :=
  fun _ => HttpOutcome.resp 204 ""
    (Except.error "Expecting value: line 1 column 1 (char 0)")

/-- Witness for C4: a 204 response to `delete_project`'s DELETE yields the
fixed success payload. -/
theorem c4_witness :
    (vercel_request cfg0 net204 "DELETE" "/v9/projects/p1" none none).1 =
      Json.obj [("success", Json.bool true)] :=
  ((c4_status_normalization cfg0 net204 "DELETE" "/v9/projects/p1" none none
      (by decide)).2.1) ""
    (Except.error "Expecting value: line 1 column 1 (char 0)") rfl

/-- C5: `process_mcp_message` routes exactly the four methods `initialize`,
`tools/list`, `tools/call` and `notifications/initialized` to their
documented behaviors, and for any other method value returns the JSON-RPC
error envelope with code `-32601` and message `Method not found: <method>`. -/
theorem c5_method_routing (cfg : Config) (net : HttpRequest → HttpOutcome)
    (d : List (String × Json)) :
    (lookupKeyD d "method" (Json.str "") = Json.str "initialize" →
      process_mcp_message cfg net (Json.obj d) =
        Except.ok (rpcResult (lookupKeyD d "id" (Json.num 1)) initializeResult, []))
    ∧ (lookupKeyD d "method" (Json.str "") = Json.str "tools/list" →
      process_mcp_message cfg net (Json.obj d) =
        Except.ok (rpcResult (lookupKeyD d "id" (Json.num 1))
          (Json.obj [("tools", Json.arr TOOLS)]), []))
    ∧ (∀ ps, lookupKeyD d "method" (Json.str "") = Json.str "tools/call" →
        lookupKeyD d "params" (Json.obj []) = Json.obj ps →
      process_mcp_message cfg net (Json.obj d) =
        Except.ok (rpcResult (lookupKeyD d "id" (Json.num 1))
          (ToolResult.toJson (handle_tool_call cfg net
            (lookupKeyD ps "name" (Json.str ""))
            (lookupKeyD ps "arguments" (Json.obj []))).1),
          (handle_tool_call cfg net (lookupKeyD ps "name" (Json.str ""))
            (lookupKeyD ps "arguments" (Json.obj []))).2))
    ∧ (lookupKeyD d "method" (Json.str "") = Json.str "notifications/initialized" →
      process_mcp_message cfg net (Json.obj d) =
        Except.ok (rpcResult (lookupKeyD d "id" (Json.num 1)) (Json.obj []), []))
    ∧ (lookupKeyD d "method" (Json.str "") ∉ [Json.str "initialize",
        Json.str "tools/list", Json.str "tools/call",
        Json.str "notifications/initialized"] →
      process_mcp_message cfg net (Json.obj d) =
        Except.ok (rpcError (lookupKeyD d "id" (Json.num 1)) (-32601)
          ("Method not found: " ++ pyStr (lookupKeyD d "method" (Json.str ""))), [])) := by
  have hpr : process_mcp_message cfg net (Json.obj d) =
      processBody cfg net (lookupKeyD d "method" (Json.str ""))
        (lookupKeyD d "params" (Json.obj [])) (lookupKeyD d "id" (Json.num 1)) := rfl
  refine ⟨?_, ?_, ?_, ?_, ?_⟩
  · intro h
    rw [hpr, h]
    rfl
  · intro h
    rw [hpr, h]
    rfl
  · intro ps h hp
    rw [hpr, h, hp]
    simp [processBody, pyDictGetD, Bind.bind, Except.bind, pure, Except.pure]
  · intro h
    rw [hpr, h]
    rfl
  · intro h
    rw [hpr]
    cases hm : lookupKeyD d "method" (Json.str "") with
    | str s =>
        rw [hm] at h
        simp only [List.mem_cons, List.mem_singleton, not_or, Json.str.injEq] at h
        simp [processBody, h]
        rfl
    | null => rfl
    | bool b => rfl
    | num n => rfl
    | arr xs => rfl
    | obj kvs => rfl

/-- Witness for C5: the unrecognized method `bogus` gets the `-32601` error
envelope. -/
theorem c5_witness :
    process_mcp_message cfg0 net404 (Json.obj [("method", Json.str "bogus")]) =
      Except.ok (rpcError (lookupKeyD [("method", Json.str "bogus")] "id" (Json.num 1))
        (-32601) ("Method not found: " ++
          pyStr (lookupKeyD [("method", Json.str "bogus")] "method" (Json.str ""))), []) :=
  (c5_method_routing cfg0 net404 [("method", Json.str "bogus")]).2.2.2.2
    (by rw [show lookupKeyD [("method", Json.str "bogus")] "method" (Json.str "") =
        Json.str "bogus" from rfl]; simp)

/-- C6 counterexample: a `tools/call` request with id `42` and a list in
place of the `params` dict raises inside `process_mcp_message`, and the
resulting `-32603` response carries the hard-coded id `1`, not the echoed
id `42`. -/
theorem c6_counterexample :
    mcp_handler cfg0 net404 (GetJsonOutcome.value (Json.obj
        [("method", Json.str "tools/call"), ("params", Json.arr []),
         ("id", Json.num 42)])) =
      ((rpcError (Json.num 1) (-32603) "'list' object has no attribute 'get'", 500), [])
    ∧ Json.num 1 ≠ Json.num 42 := by
  refine ⟨rfl, ?_⟩
  intro hq
  simp at hq

/-- C6 as amended: every response `process_mcp_message` produces carries
the id echoed from the request, defaulting to `1` when the request has no
id field; the `-32603` internal-error response produced when an uncaught
exception occurs instead carries the constant id `1`. -/
theorem c6_response_id (cfg : Config) (net : HttpRequest → HttpOutcome) :
    (∀ (d : List (String × Json)) resp reqs,
      process_mcp_message cfg net (Json.obj d) = Except.ok (resp, reqs) →
      getKey resp "id" = some (lookupKeyD d "id" (Json.num 1)))
    ∧ (∀ v e, pyTruthy v = true → process_mcp_message cfg net v = Except.error e →
      mcp_handler cfg net (GetJsonOutcome.value v) =
        ((rpcError (Json.num 1) (-32603) e, 500), [])) := by
  constructor
  · intro d resp reqs h
    replace h : processBody cfg net (lookupKeyD d "method" (Json.str ""))
        (lookupKeyD d "params" (Json.obj []))
        (lookupKeyD d "id" (Json.num 1)) = Except.ok (resp, reqs) := h
    unfold processBody at h
    split at h
    · replace h : Except.ok (rpcResult (lookupKeyD d "id" (Json.num 1)) initializeResult, []) =
          Except.ok (resp, reqs) := h
      cases h
      simp [getKey, rpcResult, lookupKey]
    · replace h : Except.ok (rpcResult (lookupKeyD d "id" (Json.num 1))
          (Json.obj [("tools", Json.arr TOOLS)]), []) = Except.ok (resp, reqs) := h
      cases h
      simp [getKey, rpcResult, lookupKey]
    · cases hp : lookupKeyD d "params" (Json.obj []) with
      | obj ps =>
          rw [hp] at h
          replace h : Except.ok (rpcResult (lookupKeyD d "id" (Json.num 1))
              (ToolResult.toJson (handle_tool_call cfg net
                (lookupKeyD ps "name" (Json.str ""))
                (lookupKeyD ps "arguments" (Json.obj []))).1),
              (handle_tool_call cfg net (lookupKeyD ps "name" (Json.str ""))
                (lookupKeyD ps "arguments" (Json.obj []))).2) =
              Except.ok (resp, reqs) := h
          cases h
          simp [getKey, rpcResult, lookupKey]
      | null => rw [hp] at h; cases h
      | bool b => rw [hp] at h; cases h
      | num n => rw [hp] at h; cases h
      | str s => rw [hp] at h; cases h
      | arr xs => rw [hp] at h; cases h
    · replace h : Except.ok (rpcResult (lookupKeyD d "id" (Json.num 1)) (Json.obj []), []) =
          Except.ok (resp, reqs) := h
      cases h
      simp [getKey, rpcResult, lookupKey]
    · replace h : Except.ok (rpcError (lookupKeyD d "id" (Json.num 1)) (-32601)
          ("Method not found: " ++ pyStr (lookupKeyD d "method" (Json.str "")))
          , []) = Except.ok (resp, reqs) := h
      cases h
      simp [getKey, rpcError, lookupKey]
  · intro v e hv he
    simp [mcp_handler, hv, he]

/-- Witness for C6: an `initialize` request with id `"abc"` is answered
with that id echoed. -/
theorem c6_witness :
    getKey (rpcResult (Json.str "abc") initializeResult) "id" =
      some (lookupKeyD [("method", Json.str "initialize"), ("id", Json.str "abc")]
        "id" (Json.num 1)) :=
  (c6_response_id cfg0 net404).1
    [("method", Json.str "initialize"), ("id", Json.str "abc")]
    (rpcResult (Json.str "abc") initializeResult) [] rfl

/-- C7: on every request `vercel_request` sends out, when a team identifier
is configured it appears as the `teamId` query parameter — merged into the
caller's parameters, overriding a caller-supplied `teamId` and leaving
every other key untouched; when no team identifier is configured the
outbound query parameters are exactly those supplied by the caller. -/
theorem c7_team_id_injection (cfg : Config) (net : HttpRequest → HttpOutcome)
    (method endpoint : String) (data : Option Json)
    (params : Option (List (String × Json))) (req : HttpRequest)
    (hreq : req ∈ (vercel_request cfg net method endpoint data params).2) :
    (cfg.VERCEL_TEAM_ID ≠ "" →
      req.params = some (setKey (params.getD []) "teamId" (Json.str cfg.VERCEL_TEAM_ID))
      ∧ lookupKey (req.params.getD []) "teamId" = some (Json.str cfg.VERCEL_TEAM_ID)
      ∧ ∀ k, k ≠ "teamId" →
          lookupKey (req.params.getD []) k = lookupKey (params.getD []) k)
    ∧ (cfg.VERCEL_TEAM_ID = "" → req.params = params) := by
  by_cases hm : method ∈ knownMethods
  · rw [vercel_request_known cfg net method endpoint data params hm] at hreq
    rw [List.mem_singleton] at hreq
    subst hreq
    constructor
    · intro ht
      have hp : (buildRequest cfg method endpoint data params).params =
          some (setKey (params.getD []) "teamId" (Json.str cfg.VERCEL_TEAM_ID)) := by
        simp [buildRequest, requestParams, ht]
      refine ⟨hp, ?_, ?_⟩
      · rw [hp]
        exact lookupKey_setKey_self _ _ _
      · intro k hk
        rw [hp]
        exact lookupKey_setKey_ne _ _ _ _ hk
    · intro ht
      simp [buildRequest, requestParams, ht]
  · have h2 : (vercel_request cfg net method endpoint data params).2 = [] := by
      simp [vercel_request, hm]
    rw [h2] at hreq
    exact absurd hreq (List.not_mem_nil _)

/-- A configuration with a team identifier set. -/
def cfgT : Config := { VERCEL_TOKEN := "tok", VERCEL_TEAM_ID := "team1" }

/-- Witness for C7: with team `team1` configured and a caller-supplied
`teamId`, the one request of a `list_domains` call carries `teamId = team1`
(the caller's value overridden) while `limit` passes through. -/
theorem c7_witness :
    (cfgT.VERCEL_TEAM_ID ≠ "" →
      (buildRequest cfgT "GET" "/v5/domains" none
          (some [("limit", Json.num 20), ("teamId", Json.str "caller")])).params =
        some (setKey ((some [("limit", Json.num 20), ("teamId", Json.str "caller")]).getD [])
          "teamId" (Json.str cfgT.VERCEL_TEAM_ID))
      ∧ lookupKey ((buildRequest cfgT "GET" "/v5/domains" none
          (some [("limit", Json.num 20), ("teamId", Json.str "caller")])).params.getD [])
          "teamId" = some (Json.str cfgT.VERCEL_TEAM_ID)
      ∧ ∀ k, k ≠ "teamId" →
          lookupKey ((buildRequest cfgT "GET" "/v5/domains" none
            (some [("limit", Json.num 20), ("teamId", Json.str "caller")])).params.getD []) k =
          lookupKey ((some [("limit", Json.num 20), ("teamId", Json.str "caller")]).getD []) k)
    ∧ (cfgT.VERCEL_TEAM_ID = "" →
      (buildRequest cfgT "GET" "/v5/domains" none
          (some [("limit", Json.num 20), ("teamId", Json.str "caller")])).params =
        some [("limit", Json.num 20), ("teamId", Json.str "caller")]) :=
  c7_team_id_injection cfgT net404 "GET" "/v5/domains" none
    (some [("limit", Json.num 20), ("teamId", Json.str "caller")])
    (buildRequest cfgT "GET" "/v5/domains" none
      (some [("limit", Json.num 20), ("teamId", Json.str "caller")]))
    (by rw [vercel_request_known cfgT net404 "GET" "/v5/domains" none
        (some [("limit", Json.num 20), ("teamId", Json.str "caller")]) (by decide)]
        exact List.mem_singleton_self _)

/-- C8: the `create_env_var` branch builds a body whose `type` field is
always `encrypted` no matter what arguments were supplied (even a caller
`type` is ignored), and whose `target` field is the supplied `target`
argument or the `production`/`preview`/`development` default when absent. -/
theorem c8_create_env_var_body (kvs : List (String × Json)) (k v pid : Json)
    (hk : lookupKey kvs "key" = some k) (hv : lookupKey kvs "value" = some v)
    (hp : lookupKey kvs "project_id" = some pid) :
    shapeTool (Json.str "create_env_var") (Json.obj kvs) =
      Except.ok (Dispatch.call "POST" ("/v10/projects/" ++ pyStr pid ++ "/env")
        (some (Json.obj [("key", k), ("value", v),
          ("target", lookupKeyD kvs "target" defaultTarget),
          ("type", Json.str "encrypted")])) none) := by
  simp [shapeTool, shapeToolNamed, pySubscript, pyDictGetD, hk, hv, hp,
    Bind.bind, Except.bind, pure, Except.pure]

/-- Witness for C8: with `project_id`, `key` and `value` supplied, a caller
`type` of `plain` and no `target`, the body still says `encrypted` and the
default target list. -/
theorem c8_witness :
    shapeTool (Json.str "create_env_var")
      (Json.obj [("project_id", Json.str "p"), ("key", Json.str "K"),
        ("value", Json.str "V"), ("type", Json.str "plain")]) =
      Except.ok (Dispatch.call "POST"
        ("/v10/projects/" ++ pyStr (Json.str "p") ++ "/env")
        (some (Json.obj [("key", Json.str "K"), ("value", Json.str "V"),
          ("target", lookupKeyD [("project_id", Json.str "p"), ("key", Json.str "K"),
            ("value", Json.str "V"), ("type", Json.str "plain")] "target" defaultTarget),
          ("type", Json.str "encrypted")])) none) :=
  c8_create_env_var_body
    [("project_id", Json.str "p"), ("key", Json.str "K"),
     ("value", Json.str "V"), ("type", Json.str "plain")]
    (Json.str "K") (Json.str "V") (Json.str "p") rfl rfl rfl

/-- C9: `handle_tool_call` is total — in this embedding every Python
exception a branch can raise is an explicit `Except.error` of `shapeTool`,
caught and rendered by the surrounding `try`, so the function returns a
plain value for every name and argument — and every result's content is a
single item of type `text` whose text is a string. -/
theorem c9_single_text_item (cfg : Config) (net : HttpRequest → HttpOutcome)
    (name args : Json) :
    ∃ s : String, (handle_tool_call cfg net name args).1.content =
      [{ type := "text", text := s }] := by
  cases hs : shapeTool name args with
  | error e => exact ⟨"Error: " ++ e, by simp [handle_tool_call, hs]⟩
  | ok dsp =>
      cases dsp with
      | unknown => exact ⟨"Unknown tool: " ++ pyStr name, by simp [handle_tool_call, hs]⟩
      | call m ep d p =>
          exact ⟨jsonDumps (vercel_request cfg net m ep d p).1,
            by simp [handle_tool_call, hs]⟩

/-- C10: a `tools/call` message whose params omit `name` dispatches the
empty string as the tool name and yields the successful JSON-RPC result
with the `Unknown tool: ` text and `isError` true — not a JSON-RPC error —
and issues no HTTP request. -/
theorem c10_missing_name_empty_string (cfg : Config) (net : HttpRequest → HttpOutcome)
    (ps : List (String × Json)) (idv : Json)
    (h : lookupKey ps "name" = none) :
    process_mcp_message cfg net (Json.obj [("method", Json.str "tools/call"),
        ("params", Json.obj ps), ("id", idv)]) =
      Except.ok (rpcResult idv (ToolResult.toJson
        { content := [{ type := "text", text := "Unknown tool: " }],
          isError := some true }), []) := by
  have hs : ∀ a, shapeTool (Json.str "") a = Except.ok Dispatch.unknown := fun a => rfl
  simp [process_mcp_message, processBody, pyDictGetD, lookupKeyD, lookupKey, h,
    Bind.bind, Except.bind, pure, Except.pure, handle_tool_call, hs, pyStr]

/-- Witness for C10: empty params with id `7`. -/
theorem c10_witness :
    process_mcp_message cfg0 net404 (Json.obj [("method", Json.str "tools/call"),
        ("params", Json.obj []), ("id", Json.num 7)]) =
      Except.ok (rpcResult (Json.num 7) (ToolResult.toJson
        { content := [{ type := "text", text := "Unknown tool: " }],
          isError := some true }), []) :=
  c10_missing_name_empty_string cfg0 net404 [] (Json.num 7) rfl
